import Mathlib

/-!
Shallow embedding of the selectivity-analysis engine of the gao2018
pipeline (src/pipeline/ephys.py): the `make` bodies of the computed
tables `UnitSelectivity` and `AlignedPsthStimOn`, together with the
helper collaborators `get_spk_times` (SpikeSlicer), `get_spk_counts`
(EpochCounter) and `get_psth` (PsthEstimator), whose code lives in the
package initializer that is not part of the sources; those three are
modelled from the specification (sections 4.2-4.4).  `get_trials`
(TrialIndex) and scipy's `ttest_ind` are external collaborators and are
kept abstract, as fields of the environment record.

Spike times and firing rates are embedded as rationals, trial ids as
integers.  Fallible steps (numpy's `np.min` / Python's `min` on an empty
sequence, use of an unassigned local variable) are an `Except.error`;
the soft skip (a `make` that returns without inserting) is
`Except.ok none`, and an inserted record is `Except.ok (some record)`.
-/

namespace Gao2018

/-- Modelled from the spec: EpochCounter counts the spikes of one trial
falling in the half-open window `[start, end)` (spec 4.3). -/
def countInWindow (spikes : List ℚ) (w : ℚ × ℚ) : ℕ :=
  (spikes.filter (fun t => decide (w.1 ≤ t ∧ t < w.2))).length

/-- Modelled from the spec: SpikeSlicer / `get_spk_times` (spec 4.2), whose
code is in the package initializer, absent from the sources.  For each
requested trial id it selects all entries `i` with `spike_trials[i] = id`
and yields `spike_times[i]`, filtering only, in input order. -/
def get_spk_times (times : List ℚ) (trials : List ℤ) (ids : List ℤ) :
    List (List ℚ) :=
  ids.map (fun i => (((times.zip trials).filter (fun p => p.2 = i)).map Prod.fst))

/-- Modelled from the spec: EpochCounter / `get_spk_counts` (spec 4.3), whose
code is in the package initializer, absent from the sources.  Each trial
yields a 4-vector of spike counts, one per epoch window (sample, delay,
response, and the wide preference-screening window); the windows are
trial-dependent data supplied by the `bounds` collaborator. -/
def get_spk_counts (bounds : ℤ → Fin 4 → ℚ × ℚ) (trialSpikes : List (List ℚ))
    (ids : List ℤ) : List (Fin 4 → ℚ) :=
  (trialSpikes.zip ids).map (fun p j => (countInWindow p.1 (bounds p.2 j) : ℚ))

/-- Column `j` of a list of per-trial 4-vectors (`spk_counts[:, j]`). -/
def col (j : Fin 4) (counts : List (Fin 4 → ℚ)) : List ℚ :=
  counts.map (fun v => v j)

/-- Column-wise mean (`np.mean(spk_counts, axis=0)`). -/
def colMean (counts : List (Fin 4 → ℚ)) (j : Fin 4) : ℚ :=
  (col j counts).sum / counts.length

/-- Model of `np.arange a b step`: the values `a + k * step` for
`k < ⌈(b - a) / step⌉`. -/
def arange (a b step : ℚ) : List ℚ :=
  (List.range (Int.ceil ((b - a) / step)).toNat).map (fun k => a + k * step)

/-- Consecutive pairs of bin edges. -/
def binPairs (edges : List ℚ) : List (ℚ × ℚ) :=
  edges.zip edges.tail

/-- Modelled from the spec: PsthEstimator / `get_psth` (spec 4.4), whose
code is in the package initializer, absent from the sources.  Pools all
spikes of the supplied trials into one histogram over the bin edges and
normalizes each bin count by (number of trials x bin width); with an
empty trial collection every bin divides by zero, which in `ℚ` is the
well-defined all-zero output the spec requires. -/
def get_psth (trialSpikes : List (List ℚ)) (edges : List ℚ) : List ℚ :=
  (binPairs edges).map
    (fun w => (countInWindow trialSpikes.flatten w : ℚ) /
      (trialSpikes.length * (w.2 - w.1)))

/-- `np.min` over a list of trial ids (total; `UnitSelectivity_make` checks
emptiness before using it, matching the `ValueError` numpy raises). -/
def minList (l : List ℤ) : ℤ :=
  l.foldl min (l.headD 0)

/-- `np.max` over a list of trial ids. -/
def maxList (l : List ℤ) : ℤ :=
  l.foldl max (l.headD 0)

/-- The `preference` enum of the `UnitSelectivity` table:
`enum('R', 'L', 'No')`. -/
inductive Preference
  | R
  | L
  | No
deriving DecidableEq, Repr

/-- Environment of one `UnitSelectivity.make` call: the unit's spike
arrays, the key dictionary (datajoint passes the primary-key attributes;
`selectivity = key.copy()` in the source rebinds the name `selectivity`
to this dictionary), and the external collaborators: `get_trials`
restricted to the no-stimulation key (`key_no_stim`) as a function of the
`(min_trial, max_trial)` range, the session's trial-set type, scipy's
t-test significance decision `ttest_sig x y`, standing for
`ss.ttest_ind(x, y).pvalue < 0.05`, the two in-place `random.shuffle`
calls as functions of the list they permute, and the per-trial epoch
windows consumed by `get_spk_counts`. -/
structure Env where
  key : List (String × String)
  spk_times : List ℚ
  spk_trials : List ℤ
  rIds : ℤ → ℤ → List ℤ
  lIds : ℤ → ℤ → List ℤ
  trial_set_type : String
  ttest_sig : List ℚ → List ℚ → Bool
  shuffleR : List ℤ → List ℤ
  shuffleL : List ℤ → List ℤ
  epochBounds : ℤ → Fin 4 → ℚ × ℚ

/-- `r_trials.fetch('trial_id')`: the right-report trial ids resolved by
`get_trials(key_no_stim, min_trial, max_trial, 'R')`. -/
def rIdsResolved (env : Env) : List ℤ :=
  env.rIds (minList env.spk_trials) (maxList env.spk_trials)

/-- `l_trials.fetch('trial_id')`, left-report side. -/
def lIdsResolved (env : Env) : List ℤ :=
  env.lIds (minList env.spk_trials) (maxList env.spk_trials)

/-- `screen_size`: 10 for photo-activation sessions, 5 otherwise. -/
def screen_size (env : Env) : ℕ :=
  if env.trial_set_type = "photo activation" then 10 else 5

/-- The right trial-id array after `random.shuffle(r_trial_ids)`. -/
def rShuffled (env : Env) : List ℤ :=
  env.shuffleR (rIdsResolved env)

/-- The left trial-id array after `random.shuffle(l_trial_ids)`. -/
def lShuffled (env : Env) : List ℤ :=
  env.shuffleL (lIdsResolved env)

/-- `r_trial_ids[:screen_size]`, the right screening subset. -/
def rScreenIds (env : Env) : List ℤ :=
  (rShuffled env).take (screen_size env)

/-- `r_trial_ids[screen_size:]`, the right test subset. -/
def rTestIds (env : Env) : List ℤ :=
  (rShuffled env).drop (screen_size env)

/-- `l_trial_ids[:screen_size]`, the left screening subset. -/
def lScreenIds (env : Env) : List ℤ :=
  (lShuffled env).take (screen_size env)

/-- `l_trial_ids[screen_size:]`, the left test subset. -/
def lTestIds (env : Env) : List ℤ :=
  (lShuffled env).drop (screen_size env)

/-- `get_spk_times(key, spk_times, spk_trials, ids)` for this unit. -/
def spkTimesOf (env : Env) (ids : List ℤ) : List (List ℚ) :=
  get_spk_times env.spk_times env.spk_trials ids

/-- `get_spk_counts(key, get_spk_times(...), ids)` for this unit. -/
def spkCountsOf (env : Env) (ids : List ℤ) : List (Fin 4 → ℚ) :=
  get_spk_counts env.epochBounds (spkTimesOf env ids) ids

/-- `spk_counts_r`: epoch counts over the full resolved right set. -/
def spkCountsR (env : Env) : List (Fin 4 → ℚ) :=
  spkCountsOf env (rIdsResolved env)

/-- `spk_counts_l`: epoch counts over the full resolved left set. -/
def spkCountsL (env : Env) : List (Fin 4 → ℚ) :=
  spkCountsOf env (lIdsResolved env)

/-- `mean_fr_r_screen = np.mean(get_spk_counts(...r_trial_ids[:screen_size]), axis=0)`. -/
def meanFrRScreen (env : Env) : Fin 4 → ℚ :=
  colMean (spkCountsOf env (rScreenIds env))

/-- `mean_fr_l_screen`, left screening-subset column means. -/
def meanFrLScreen (env : Env) : Fin 4 → ℚ :=
  colMean (spkCountsOf env (lScreenIds env))

/-- `time_window = [-3.5, 2]`. -/
def time_window : ℚ × ℚ :=
  (-(7 / 2 : ℚ), 2)

/-- `bins = np.arange(time_window[0], time_window[1] + 0.001, 0.001)`. -/
def bins : List ℚ :=
  arange (-(7 / 2 : ℚ)) (2 + 1 / 1000) (1 / 1000)

/-- The collection of per-trial spike lists handed to the PSTH estimator
for the right test subset (`spk_times_r_test`). -/
def spkTimesRTest (env : Env) : List (List ℚ) :=
  spkTimesOf env (rTestIds env)

/-- `spk_times_l_test`, left test subset. -/
def spkTimesLTest (env : Env) : List (List ℚ) :=
  spkTimesOf env (lTestIds env)

/-- `psth_r_test = get_psth(spk_times_r_test, bins)`. -/
def psthRTest (env : Env) : List ℚ :=
  get_psth (spkTimesRTest env) bins

/-- `psth_l_test = get_psth(spk_times_l_test, bins)`. -/
def psthLTest (env : Env) : List ℚ :=
  get_psth (spkTimesLTest env) bins

/-- One row of the `UnitSelectivity` table (the dictionary handed to
`self.insert1`). -/
structure SelRec where
  r_trial_number : ℕ
  l_trial_number : ℕ
  r_trial_ids : List ℤ
  l_trial_ids : List ℤ
  sample_selectivity : Bool
  delay_selectivity : Bool
  response_selectivity : Bool
  selectivity : Bool
  time_window : ℚ × ℚ
  bins : List ℚ
  trial_ids_screened_r : List ℤ
  trial_ids_screened_l : List ℤ
  mean_fr_r_all : Fin 4 → ℚ
  mean_fr_l_all : Fin 4 → ℚ
  mean_fr_diff_rl_all : Fin 4 → ℚ
  psth_r_test : List ℚ
  psth_l_test : List ℚ
  psth_prefer_test : List ℚ
  psth_non_prefer_test : List ℚ
  psth_diff_test : List ℚ
  preference : Preference

/-- The record built by the success path of `UnitSelectivity.make`
(ephys.py lines 156-258).  The t-test flags come from columns 0-2 of the
full right/left epoch counts; the stored `selectivity` is their
disjunction (`np.any`).  The preference comparison reads component 3 of
the screening-subset means; afterwards the source's `if not selectivity:`
tests the truthiness of the dictionary `selectivity = key.copy()` (line
140) - not the boolean flag - so the override to `'No'` fires exactly
when the key dictionary is empty.  The stored `r_trial_ids` /
`l_trial_ids` are the arrays after the in-place shuffle. -/
def mkSelRec (env : Env) : SelRec :=
  let sample_selectivity := env.ttest_sig (col 0 (spkCountsR env)) (col 0 (spkCountsL env))
  let delay_selectivity := env.ttest_sig (col 1 (spkCountsR env)) (col 1 (spkCountsL env))
  let response_selectivity := env.ttest_sig (col 2 (spkCountsR env)) (col 2 (spkCountsL env))
  let prefer0 : Preference :=
    if meanFrRScreen env 3 > meanFrLScreen env 3 then .R else .L
  let preference : Preference :=
    if env.key.isEmpty then .No else prefer0
  let psth_prefer_test :=
    if meanFrRScreen env 3 > meanFrLScreen env 3 then psthRTest env else psthLTest env
  let psth_non_prefer_test :=
    if meanFrRScreen env 3 > meanFrLScreen env 3 then psthLTest env else psthRTest env
  { r_trial_number := (rIdsResolved env).length
    l_trial_number := (lIdsResolved env).length
    r_trial_ids := rShuffled env
    l_trial_ids := lShuffled env
    sample_selectivity := sample_selectivity
    delay_selectivity := delay_selectivity
    response_selectivity := response_selectivity
    selectivity := sample_selectivity || delay_selectivity || response_selectivity
    time_window := time_window
    bins := bins
    trial_ids_screened_r := rScreenIds env
    trial_ids_screened_l := lScreenIds env
    mean_fr_r_all := colMean (spkCountsR env)
    mean_fr_l_all := colMean (spkCountsL env)
    mean_fr_diff_rl_all := fun j => colMean (spkCountsR env) j - colMean (spkCountsL env) j
    psth_r_test := psthRTest env
    psth_l_test := psthLTest env
    psth_prefer_test := psth_prefer_test
    psth_non_prefer_test := psth_non_prefer_test
    psth_diff_test := List.zipWith (· - ·) psth_prefer_test psth_non_prefer_test
    preference := preference }

/-- `UnitSelectivity.make` (ephys.py lines 138-260).  `np.min` on an
empty `spike_trials` array raises, before any trial resolution; then the
`> 8` trials-per-side guard returns without inserting; otherwise the
record is computed and inserted. -/
def UnitSelectivity_make (env : Env) : Except String (Option SelRec) :=
  if env.spk_trials = [] then
    Except.error "zero-size array to reduction operation minimum"
  else if ¬ (8 < (lIdsResolved env).length ∧ 8 < (rIdsResolved env).length) then
    Except.ok none
  else
    Except.ok (some (mkSelRec env))

/-- Environment of one `AlignedPsthStimOn.make` call: the photostim
condition id of the key, the referenced baseline `UnitSelectivity`
record (`fetch1` of `time_window`, `bins`, `preference`, `selectivity`;
here `selectivity` really is the stored boolean), the unit's spike
arrays, `get_trials` under the stimulation key, and the epoch windows. -/
structure StimEnv where
  photo_stim_id : String
  base : SelRec
  spk_times : List ℚ
  spk_trials : List ℤ
  rIds : ℤ → ℤ → List ℤ
  lIds : ℤ → ℤ → List ℤ
  epochBounds : ℤ → Fin 4 → ℚ × ℚ

/-- Right-report trial ids resolved by
`get_trials(key, min_trial, max_trial, 'R')` for the stim condition. -/
def rIdsOn (env : StimEnv) : List ℤ :=
  env.rIds (minList env.spk_trials) (maxList env.spk_trials)

/-- Left-report trial ids for the stim condition. -/
def lIdsOn (env : StimEnv) : List ℤ :=
  env.lIds (minList env.spk_trials) (maxList env.spk_trials)

/-- `spk_counts_r` of the stim-on pass. -/
def spkCountsROn (env : StimEnv) : List (Fin 4 → ℚ) :=
  get_spk_counts env.epochBounds
    (get_spk_times env.spk_times env.spk_trials (rIdsOn env)) (rIdsOn env)

/-- `spk_counts_l` of the stim-on pass. -/
def spkCountsLOn (env : StimEnv) : List (Fin 4 → ℚ) :=
  get_spk_counts env.epochBounds
    (get_spk_times env.spk_times env.spk_trials (lIdsOn env)) (lIdsOn env)

/-- `psth_r = get_psth(spk_times_r, bins)` with the bins fetched from the
baseline `UnitSelectivity` record. -/
def psthROn (env : StimEnv) : List ℚ :=
  get_psth (get_spk_times env.spk_times env.spk_trials (rIdsOn env)) env.base.bins

/-- `psth_l` of the stim-on pass, over the baseline record's bins. -/
def psthLOn (env : StimEnv) : List ℚ :=
  get_psth (get_spk_times env.spk_times env.spk_trials (lIdsOn env)) env.base.bins

/-- One row of the `AlignedPsthStimOn` table. -/
structure StimRec where
  r_trial_number_on : ℕ
  l_trial_number_on : ℕ
  mean_fr_r_on : Fin 4 → ℚ
  mean_fr_l_on : Fin 4 → ℚ
  psth_r_on : List ℚ
  psth_l_on : List ℚ
  psth_prefer_on : List ℚ
  psth_non_prefer_on : List ℚ
  psth_diff_on : List ℚ

/-- The record built by the success path of `AlignedPsthStimOn.make`
(ephys.py lines 304-338), reached only with the baseline preference `R`
or `L`: the preferred/non-preferred pair is chosen by that fetched
label. -/
def mkStimRec (env : StimEnv) : StimRec :=
  let psth_r := psthROn env
  let psth_l := psthLOn env
  let prefer := if env.base.preference = .R then psth_r else psth_l
  let nonprefer := if env.base.preference = .R then psth_l else psth_r
  { r_trial_number_on := (rIdsOn env).length
    l_trial_number_on := (lIdsOn env).length
    mean_fr_r_on := colMean (spkCountsROn env)
    mean_fr_l_on := colMean (spkCountsLOn env)
    psth_r_on := psth_r
    psth_l_on := psth_l
    psth_prefer_on := prefer
    psth_non_prefer_on := nonprefer
    psth_diff_on := List.zipWith (· - ·) prefer nonprefer }

/-- `AlignedPsthStimOn.make` (ephys.py lines 280-340): return with no
record when the photostim id is `'NaN'` or `'0'`, or when the fetched
baseline `selectivity` boolean is false, or when either resolved side
has 2 or fewer trials; Python's `min` on an empty `spike_trials` raises;
and a fetched baseline preference `'No'` leaves `psth_prefer` unassigned,
so the later read raises. -/
def AlignedPsthStimOn_make (env : StimEnv) : Except String (Option StimRec) :=
  if env.photo_stim_id = "NaN" ∨ env.photo_stim_id = "0" then
    Except.ok none
  else if env.base.selectivity = false then
    Except.ok none
  else if env.spk_trials = [] then
    Except.error "min() arg is an empty sequence"
  else if ¬ (2 < (lIdsOn env).length ∧ 2 < (rIdsOn env).length) then
    Except.ok none
  else if env.base.preference = .No then
    Except.error "local variable referenced before assignment"
  else
    Except.ok (some (mkStimRec env))

/-! Concrete environments used by the witness and counterexample
theorems.  In `envBase` the unit's one spike sits in trial 100, outside
both report sets, every t-test is non-significant, the session is of
photo-activation type (screen size 10), and each side resolves to 9
trial ids, so the `> 8` guard passes. -/

/-- A baseline environment: photo-activation session, 9 right and 9 left
trials, one spike in an unrelated trial, non-significant t-tests,
identity shuffles. -/
def envBase : Env :=
  { key := [("subject_id", "s1")]
    spk_times := [0]
    spk_trials := [100]
    rIds := fun _ _ => [1, 2, 3, 4, 5, 6, 7, 8, 9]
    lIds := fun _ _ => [11, 12, 13, 14, 15, 16, 17, 18, 19]
    trial_set_type := "photo activation"
    ttest_sig := fun _ _ => false
    shuffleR := fun l => l
    shuffleL := fun l => l
    epochBounds := fun _ _ => (0, 1) }

/-- Variant of `envBase` with a spike at time 1/2 in right trial 1, so
the right screening mean of every epoch component is positive while the
left one is zero. -/
def envRPref : Env :=
  { envBase with spk_times := [1 / 2], spk_trials := [1] }

/-- Variant of `envBase` that is not a photo-activation session
(screen size 5). -/
def envCtrl : Env :=
  { envBase with trial_set_type := "control" }

/-- Variant of `envBase` whose right side resolves to only 3 trials, so
the `> 8` guard fails. -/
def envFewTrials : Env :=
  { envBase with rIds := fun _ _ => [1, 2, 3] }

/-- Variant of `envBase` with an empty `spike_trials` array. -/
def envNoSpikes : Env :=
  { envBase with spk_trials := [] }

/-- A baseline `UnitSelectivity` record as fetched by
`AlignedPsthStimOn.make`: selective, right-preferring, with a tiny bin
grid so that witnesses evaluate cheaply. -/
def baseRec : SelRec :=
  { r_trial_number := 9
    l_trial_number := 9
    r_trial_ids := [1, 2, 3, 4, 5, 6, 7, 8, 9]
    l_trial_ids := [11, 12, 13, 14, 15, 16, 17, 18, 19]
    sample_selectivity := true
    delay_selectivity := false
    response_selectivity := false
    selectivity := true
    time_window := (0, 1 / 1000)
    bins := [0, 1 / 1000]
    trial_ids_screened_r := [1, 2, 3, 4, 5]
    trial_ids_screened_l := [11, 12, 13, 14, 15]
    mean_fr_r_all := fun _ => 0
    mean_fr_l_all := fun _ => 0
    mean_fr_diff_rl_all := fun _ => 0
    psth_r_test := [0]
    psth_l_test := [0]
    psth_prefer_test := [0]
    psth_non_prefer_test := [0]
    psth_diff_test := [0]
    preference := .R }

/-- A stim-on environment that reaches the success path: non-null stim
id, selective right-preferring baseline, 4 trials per side. -/
def stimEnvOk : StimEnv :=
  { photo_stim_id := "1"
    base := baseRec
    spk_times := [0]
    spk_trials := [5]
    rIds := fun _ _ => [1, 2, 3, 4]
    lIds := fun _ _ => [11, 12, 13, 14]
    epochBounds := fun _ _ => (0, 1) }

/-- Variant of `stimEnvOk` with the null photostim id `'0'`. -/
def stimEnvZero : StimEnv :=
  { stimEnvOk with photo_stim_id := "0" }

/-- Variant of `stimEnvOk` whose baseline record is not selective. -/
def stimEnvNotSel : StimEnv :=
  { stimEnvOk with base := { baseRec with selectivity := false } }

/-- Variant of `stimEnvOk` whose right side resolves to only 2 trials. -/
def stimEnvFew : StimEnv :=
  { stimEnvOk with rIds := fun _ _ => [1, 2] }

/-! Characterizations of the two `make` functions, shared by the claim
theorems and their witnesses. -/

/-- When the spike-trial array is non-empty and both sides clear the
`> 8` guard, `UnitSelectivity.make` inserts exactly `mkSelRec env`. -/
theorem US_make_eq_some (env : Env) (hne : env.spk_trials ≠ [])
    (hl : 8 < (lIdsResolved env).length) (hr : 8 < (rIdsResolved env).length) :
    UnitSelectivity_make env = Except.ok (some (mkSelRec env)) := by
  unfold UnitSelectivity_make
  rw [if_neg hne, if_neg (by simp [hl, hr])]

/-- Any record emitted by `UnitSelectivity.make` is `mkSelRec env`. -/
theorem US_emitted_eq (env : Env) (rec : SelRec)
    (h : UnitSelectivity_make env = Except.ok (some rec)) :
    rec = mkSelRec env := by
  unfold UnitSelectivity_make at h
  split at h
  · simp at h
  · split at h
    · simp at h
    · simp at h
      exact h.symm

/-- When every guard of `AlignedPsthStimOn.make` passes and the fetched
baseline preference is not `'No'`, the inserted record is
`mkStimRec env`. -/
theorem Stim_make_eq_some (env : StimEnv)
    (hid : ¬ (env.photo_stim_id = "NaN" ∨ env.photo_stim_id = "0"))
    (hsel : env.base.selectivity = true)
    (hne : env.spk_trials ≠ [])
    (hl : 2 < (lIdsOn env).length) (hr : 2 < (rIdsOn env).length)
    (hpref : env.base.preference ≠ Preference.No) :
    AlignedPsthStimOn_make env = Except.ok (some (mkStimRec env)) := by
  unfold AlignedPsthStimOn_make
  rw [if_neg hid, if_neg (by simp [hsel]), if_neg hne,
    if_neg (by simp [hl, hr]), if_neg hpref]

/-- Any record emitted by `AlignedPsthStimOn.make` is `mkStimRec env`,
and the fetched baseline preference was `'R'` or `'L'`. -/
theorem Stim_emitted_eq (env : StimEnv) (rec : StimRec)
    (h : AlignedPsthStimOn_make env = Except.ok (some rec)) :
    rec = mkStimRec env ∧ env.base.preference ≠ Preference.No := by
  unfold AlignedPsthStimOn_make at h
  split at h
  · simp at h
  · split at h
    · simp at h
    · split at h
      · simp at h
      · split at h
        · simp at h
        · split at h
          · simp at h
          · rename_i hpref
            simp at h
            exact ⟨h.symm, hpref⟩

/-- The emitted preference field, as the source computes it: the
screening comparison, overridden to `'No'` exactly when the key
dictionary tested by `if not selectivity:` is empty. -/
theorem mkSelRec_preference (env : Env) :
    (mkSelRec env).preference =
      if env.key.isEmpty then Preference.No
      else if meanFrRScreen env 3 > meanFrLScreen env 3 then Preference.R
      else Preference.L := by
  by_cases hk : env.key.isEmpty <;>
    by_cases hm : meanFrRScreen env 3 > meanFrLScreen env 3 <;>
      simp [mkSelRec, hk, hm]

/-- The emitted preferred-side test PSTH, as the source computes it. -/
theorem mkSelRec_prefer_test (env : Env) :
    (mkSelRec env).psth_prefer_test =
      if meanFrRScreen env 3 > meanFrLScreen env 3 then psthRTest env
      else psthLTest env := rfl

/-- The emitted non-preferred-side test PSTH. -/
theorem mkSelRec_non_prefer_test (env : Env) :
    (mkSelRec env).psth_non_prefer_test =
      if meanFrRScreen env 3 > meanFrLScreen env 3 then psthLTest env
      else psthRTest env := rfl

/-- C3: for every unit/condition pair where the resolved right-report or
left-report trial set has 8 or fewer trials, `UnitSelectivity.make`
emits no record and raises no error: it returns early, before any spike
slicing, counting, testing, or insertion. -/
theorem US_insufficient_trials_soft_skip (env : Env)
    (hne : env.spk_trials ≠ [])
    (h : (rIdsResolved env).length ≤ 8 ∨ (lIdsResolved env).length ≤ 8) :
    UnitSelectivity_make env = Except.ok none := by
  unfold UnitSelectivity_make
  rw [if_neg hne, if_pos (by omega)]

/-- Witness for C3: with only 3 right-report trials the task is a soft
skip. -/
theorem US_insufficient_trials_soft_skip_witness :
    UnitSelectivity_make envFewTrials = Except.ok none :=
  US_insufficient_trials_soft_skip envFewTrials (by decide) (Or.inl (by decide))

/-- C9: `UnitSelectivity.make` derives the trial range by `np.min` /
`np.max` of the unit's `spike_trials` array with no emptiness guard, so
a unit with empty spike arrays produces a hard failure, not a soft skip
and not an emitted record. -/
theorem US_empty_spikes_hard_error (env : Env)
    (h : env.spk_trials = []) :
    UnitSelectivity_make env =
      Except.error "zero-size array to reduction operation minimum" := by
  unfold UnitSelectivity_make
  rw [if_pos h]

/-- Witness for C9 at the spikeless environment. -/
theorem US_empty_spikes_hard_error_witness :
    UnitSelectivity_make envNoSpikes =
      Except.error "zero-size array to reduction operation minimum" :=
  US_empty_spikes_hard_error envNoSpikes (by decide)

/-- C4: each epoch selectivity flag of an emitted record is exactly the
t-test significance decision on that epoch's per-trial count columns
between the full right-report and full left-report sets, and the stored
overall `selectivity` is the disjunction of the three flags. -/
theorem US_selectivity_flags (env : Env) (rec : SelRec)
    (h : UnitSelectivity_make env = Except.ok (some rec)) :
    rec.sample_selectivity = env.ttest_sig (col 0 (spkCountsR env)) (col 0 (spkCountsL env)) ∧
    rec.delay_selectivity = env.ttest_sig (col 1 (spkCountsR env)) (col 1 (spkCountsL env)) ∧
    rec.response_selectivity = env.ttest_sig (col 2 (spkCountsR env)) (col 2 (spkCountsL env)) ∧
    rec.selectivity =
      (rec.sample_selectivity || rec.delay_selectivity || rec.response_selectivity) := by
  have he := US_emitted_eq env rec h
  subst he
  exact ⟨rfl, rfl, rfl, rfl⟩

/-- Witness for C4 at `envBase`. -/
theorem US_selectivity_flags_witness :
    (mkSelRec envBase).sample_selectivity =
      envBase.ttest_sig (col 0 (spkCountsR envBase)) (col 0 (spkCountsL envBase)) ∧
    (mkSelRec envBase).delay_selectivity =
      envBase.ttest_sig (col 1 (spkCountsR envBase)) (col 1 (spkCountsL envBase)) ∧
    (mkSelRec envBase).response_selectivity =
      envBase.ttest_sig (col 2 (spkCountsR envBase)) (col 2 (spkCountsL envBase)) ∧
    (mkSelRec envBase).selectivity =
      ((mkSelRec envBase).sample_selectivity || (mkSelRec envBase).delay_selectivity ||
        (mkSelRec envBase).response_selectivity) :=
  US_selectivity_flags envBase (mkSelRec envBase)
    (US_make_eq_some envBase (by decide) (by decide) (by decide))

/-- C1: evaluation of the code on a run where none of the three t-tests
is significant: the emitted record has `selectivity = false`, yet its
preference is `'L'`, not `'No'` - the source's `if not selectivity:`
(ephys.py line 232) tests the dictionary bound by
`selectivity = key.copy()` (line 140), which is never empty, so the
override to `'No'` is unreachable. -/
theorem US_notSelective_preference_evaluation :
    UnitSelectivity_make envBase = Except.ok (some (mkSelRec envBase)) ∧
    (mkSelRec envBase).selectivity = false ∧
    (mkSelRec envBase).preference = Preference.L := by
  refine ⟨US_make_eq_some envBase (by decide) (by decide) (by decide), rfl, ?_⟩
  rw [mkSelRec_preference]
  with_unfolding_all decide

/-- C10: when the right and left screening-subset means of the 4th
epoch-count component are exactly equal, the emitted record prefers the
left side: preference `'L'` and `psth_prefer_test` is the left test
PSTH. -/
theorem US_tie_prefers_left (env : Env) (rec : SelRec)
    (h : UnitSelectivity_make env = Except.ok (some rec))
    (hkey : env.key ≠ [])
    (htie : meanFrRScreen env 3 = meanFrLScreen env 3) :
    rec.preference = Preference.L ∧ rec.psth_prefer_test = rec.psth_l_test := by
  have he := US_emitted_eq env rec h
  subst he
  have hn : ¬ meanFrRScreen env 3 > meanFrLScreen env 3 := by
    rw [htie]
    exact lt_irrefl _
  refine ⟨?_, ?_⟩
  · rw [mkSelRec_preference, if_neg (by simpa using hkey), if_neg hn]
  · rw [mkSelRec_prefer_test, if_neg hn]
    rfl

/-- Witness for C10: at `envBase` both screening means are zero, and the
record prefers the left side. -/
theorem US_tie_prefers_left_witness :
    (mkSelRec envBase).preference = Preference.L ∧
    (mkSelRec envBase).psth_prefer_test = (mkSelRec envBase).psth_l_test :=
  US_tie_prefers_left envBase (mkSelRec envBase)
    (US_make_eq_some envBase (by decide) (by decide) (by decide))
    (by decide) (by with_unfolding_all decide)

/-- C5: in every successful run (the key dictionary of a datajoint
`make` is never empty), the side with the strictly higher screening mean
of the 4th epoch-count component is declared preferred, and the
preferred/non-preferred test PSTH pair is assigned accordingly. -/
theorem US_screening_preference (env : Env) (rec : SelRec)
    (h : UnitSelectivity_make env = Except.ok (some rec))
    (hkey : env.key ≠ []) :
    (meanFrRScreen env 3 > meanFrLScreen env 3 →
      rec.preference = Preference.R ∧ rec.psth_prefer_test = rec.psth_r_test ∧
      rec.psth_non_prefer_test = rec.psth_l_test) ∧
    (meanFrLScreen env 3 > meanFrRScreen env 3 →
      rec.preference = Preference.L ∧ rec.psth_prefer_test = rec.psth_l_test ∧
      rec.psth_non_prefer_test = rec.psth_r_test) := by
  have he := US_emitted_eq env rec h
  subst he
  constructor
  · intro hm
    refine ⟨?_, ?_, ?_⟩
    · rw [mkSelRec_preference, if_neg (by simpa using hkey), if_pos hm]
    · rw [mkSelRec_prefer_test, if_pos hm]
      rfl
    · rw [mkSelRec_non_prefer_test, if_pos hm]
      rfl
  · intro hm
    have hn : ¬ meanFrRScreen env 3 > meanFrLScreen env 3 := not_lt_of_gt hm
    refine ⟨?_, ?_, ?_⟩
    · rw [mkSelRec_preference, if_neg (by simpa using hkey), if_neg hn]
    · rw [mkSelRec_prefer_test, if_neg hn]
      rfl
    · rw [mkSelRec_non_prefer_test, if_neg hn]
      rfl

/-- Witness for C5: at `envRPref` the right screening mean is 1/9, the
left one 0, and the record prefers the right side. -/
theorem US_screening_preference_witness :
    meanFrRScreen envRPref 3 > meanFrLScreen envRPref 3 ∧
    (mkSelRec envRPref).preference = Preference.R ∧
    (mkSelRec envRPref).psth_prefer_test = (mkSelRec envRPref).psth_r_test ∧
    (mkSelRec envRPref).psth_non_prefer_test = (mkSelRec envRPref).psth_l_test :=
  ⟨by with_unfolding_all decide,
    (US_screening_preference envRPref (mkSelRec envRPref)
      (US_make_eq_some envRPref (by decide) (by decide) (by decide))
      (by decide)).1 (by with_unfolding_all decide)⟩

/-- C6: for every emitted record, each side's screening subset (the
first `screen_size` entries of the shuffled trial-id array) and test
subset (the remaining entries) are disjoint, their union is exactly the
full resolved trial-id set for that side, and the screening subset has
`min(screen_size, |set|)` elements.  The shuffle is an in-place
permutation of a duplicate-free id list, hence the two permutation and
two no-duplicate hypotheses. -/
theorem US_screen_test_split (env : Env) (rec : SelRec)
    (h : UnitSelectivity_make env = Except.ok (some rec))
    (hpr : (rShuffled env).Perm (rIdsResolved env))
    (hpl : (lShuffled env).Perm (lIdsResolved env))
    (hnr : (rIdsResolved env).Nodup)
    (hnl : (lIdsResolved env).Nodup) :
    rec.trial_ids_screened_r = rScreenIds env ∧
    rec.trial_ids_screened_l = lScreenIds env ∧
    List.Disjoint (rScreenIds env) (rTestIds env) ∧
    List.Disjoint (lScreenIds env) (lTestIds env) ∧
    (∀ x, (x ∈ rScreenIds env ∨ x ∈ rTestIds env) ↔ x ∈ rIdsResolved env) ∧
    (∀ x, (x ∈ lScreenIds env ∨ x ∈ lTestIds env) ↔ x ∈ lIdsResolved env) ∧
    (rScreenIds env).length = min (screen_size env) (rIdsResolved env).length ∧
    (lScreenIds env).length = min (screen_size env) (lIdsResolved env).length := by
  have he := US_emitted_eq env rec h
  subst he
  have hnr' : (rShuffled env).Nodup := hpr.nodup_iff.mpr hnr
  have hnl' : (lShuffled env).Nodup := hpl.nodup_iff.mpr hnl
  refine ⟨rfl, rfl, List.disjoint_take_drop hnr' le_rfl,
    List.disjoint_take_drop hnl' le_rfl, ?_, ?_, ?_, ?_⟩
  · intro x
    rw [rScreenIds, rTestIds, ← List.mem_append, List.take_append_drop]
    exact hpr.mem_iff
  · intro x
    rw [lScreenIds, lTestIds, ← List.mem_append, List.take_append_drop]
    exact hpl.mem_iff
  · rw [rScreenIds, List.length_take, hpr.length_eq]
  · rw [lScreenIds, List.length_take, hpl.length_eq]

/-- Witness for C6 at `envBase` (identity shuffles, duplicate-free id
lists of length 9, screen size 10). -/
theorem US_screen_test_split_witness :
    (mkSelRec envBase).trial_ids_screened_r = rScreenIds envBase ∧
    (mkSelRec envBase).trial_ids_screened_l = lScreenIds envBase ∧
    List.Disjoint (rScreenIds envBase) (rTestIds envBase) ∧
    List.Disjoint (lScreenIds envBase) (lTestIds envBase) ∧
    (∀ x, (x ∈ rScreenIds envBase ∨ x ∈ rTestIds envBase) ↔ x ∈ rIdsResolved envBase) ∧
    (∀ x, (x ∈ lScreenIds envBase ∨ x ∈ lTestIds envBase) ↔ x ∈ lIdsResolved envBase) ∧
    (rScreenIds envBase).length = min (screen_size envBase) (rIdsResolved envBase).length ∧
    (lScreenIds envBase).length = min (screen_size envBase) (lIdsResolved envBase).length :=
  US_screen_test_split envBase (mkSelRec envBase)
    (US_make_eq_some envBase (by decide) (by decide) (by decide))
    (List.Perm.refl _) (List.Perm.refl _) (by decide) (by decide)

/-- C2 (amended): for every unit/condition pair passing the
`> 8`-trials-per-side guard in a session that is not of trial-set type
"photo activation" (screen size 5), every trial collection handed to the
PSTH estimator - the right and left test subsets - is non-empty.  For
photo-activation sessions (screen size 10) the guard does not suffice:
see the counterexample. -/
theorem US_test_collections_nonempty (env : Env)
    (hlr : (rShuffled env).length = (rIdsResolved env).length)
    (hll : (lShuffled env).length = (lIdsResolved env).length)
    (hr : 8 < (rIdsResolved env).length)
    (hl : 8 < (lIdsResolved env).length)
    (hty : env.trial_set_type ≠ "photo activation") :
    spkTimesRTest env ≠ [] ∧ spkTimesLTest env ≠ [] := by
  have hs : screen_size env = 5 := by simp [screen_size, hty]
  have hlenr : (spkTimesRTest env).length = (rShuffled env).length - screen_size env := by
    simp [spkTimesRTest, spkTimesOf, get_spk_times, rTestIds]
  have hlenl : (spkTimesLTest env).length = (lShuffled env).length - screen_size env := by
    simp [spkTimesLTest, spkTimesOf, get_spk_times, lTestIds]
  refine ⟨List.ne_nil_of_length_pos (by omega), List.ne_nil_of_length_pos (by omega)⟩

/-- Witness for C2 at the non-photo-activation environment `envCtrl`. -/
theorem US_test_collections_nonempty_witness :
    spkTimesRTest envCtrl ≠ [] ∧ spkTimesLTest envCtrl ≠ [] :=
  US_test_collections_nonempty envCtrl rfl rfl (by decide) (by decide) (by decide)

/-- C2 counterexample: `envBase` is a photo-activation session with 9
trials on each side.  Both sides pass the `> 8` guard, a record is
emitted, and yet the right test collection handed to the PSTH estimator
is empty: the caller has not guarded against the zero-trial rate
estimate. -/
theorem US_test_collection_empty_cex :
    8 < (rIdsResolved envBase).length ∧ 8 < (lIdsResolved envBase).length ∧
    (rShuffled envBase).length = (rIdsResolved envBase).length ∧
    (lShuffled envBase).length = (lIdsResolved envBase).length ∧
    UnitSelectivity_make envBase = Except.ok (some (mkSelRec envBase)) ∧
    spkTimesRTest envBase = [] :=
  ⟨by decide, by decide, rfl, rfl,
    US_make_eq_some envBase (by decide) (by decide) (by decide), by decide⟩

/-- The stim-on record's preferred PSTH, chosen by the fetched baseline
preference label. -/
theorem mkStimRec_prefer_on (env : StimEnv) :
    (mkStimRec env).psth_prefer_on =
      if env.base.preference = Preference.R then psthROn env else psthLOn env := rfl

/-- The stim-on record's non-preferred PSTH. -/
theorem mkStimRec_non_prefer_on (env : StimEnv) :
    (mkStimRec env).psth_non_prefer_on =
      if env.base.preference = Preference.R then psthLOn env else psthROn env := rfl

/-- C7: `AlignedPsthStimOn.make` emits no record whenever the photostim
id is `'0'` or `'NaN'`, or the referenced baseline record's selectivity
flag is false, or either side of the stim condition has 2 or fewer
trials; when it does emit, its PSTHs are binned with the baseline
record's bins and the preferred/non-preferred pair follows the baseline
preference label, with no recomputation of selectivity. -/
theorem StimOn_guards_and_reuse (env : StimEnv) :
    ((env.photo_stim_id = "0" ∨ env.photo_stim_id = "NaN") →
      AlignedPsthStimOn_make env = Except.ok none) ∧
    (env.base.selectivity = false → AlignedPsthStimOn_make env = Except.ok none) ∧
    (env.spk_trials ≠ [] →
      ((rIdsOn env).length ≤ 2 ∨ (lIdsOn env).length ≤ 2) →
      AlignedPsthStimOn_make env = Except.ok none) ∧
    (∀ rec, AlignedPsthStimOn_make env = Except.ok (some rec) →
      rec.psth_r_on = psthROn env ∧ rec.psth_l_on = psthLOn env ∧
      (env.base.preference = Preference.R →
        rec.psth_prefer_on = rec.psth_r_on ∧ rec.psth_non_prefer_on = rec.psth_l_on) ∧
      (env.base.preference = Preference.L →
        rec.psth_prefer_on = rec.psth_l_on ∧ rec.psth_non_prefer_on = rec.psth_r_on)) := by
  refine ⟨?_, ?_, ?_, ?_⟩
  · intro h
    unfold AlignedPsthStimOn_make
    rw [if_pos h.symm]
  · intro h
    unfold AlignedPsthStimOn_make
    by_cases h1 : env.photo_stim_id = "NaN" ∨ env.photo_stim_id = "0"
    · rw [if_pos h1]
    · rw [if_neg h1, if_pos h]
  · intro hne hle
    unfold AlignedPsthStimOn_make
    by_cases h1 : env.photo_stim_id = "NaN" ∨ env.photo_stim_id = "0"
    · rw [if_pos h1]
    · rw [if_neg h1]
      by_cases h2 : env.base.selectivity = false
      · rw [if_pos h2]
      · rw [if_neg h2, if_neg hne, if_pos (by omega)]
  · intro rec h
    obtain ⟨he, hpref⟩ := Stim_emitted_eq env rec h
    subst he
    refine ⟨rfl, rfl, ?_, ?_⟩
    · intro hR
      constructor
      · rw [mkStimRec_prefer_on, if_pos hR]
        rfl
      · rw [mkStimRec_non_prefer_on, if_pos hR]
        rfl
    · intro hL
      have hnR : ¬ env.base.preference = Preference.R := by
        rw [hL]
        exact fun hc => Preference.noConfusion hc
      constructor
      · rw [mkStimRec_prefer_on, if_neg hnR]
        rfl
      · rw [mkStimRec_non_prefer_on, if_neg hnR]
        rfl

/-- Witness for C7: the three skip guards exercised at `stimEnvZero`,
`stimEnvNotSel` and `stimEnvFew`, and the reuse clause at the emitting
environment `stimEnvOk`. -/
theorem StimOn_guards_and_reuse_witness :
    AlignedPsthStimOn_make stimEnvZero = Except.ok none ∧
    AlignedPsthStimOn_make stimEnvNotSel = Except.ok none ∧
    AlignedPsthStimOn_make stimEnvFew = Except.ok none ∧
    ((mkStimRec stimEnvOk).psth_r_on = psthROn stimEnvOk ∧
      (mkStimRec stimEnvOk).psth_l_on = psthLOn stimEnvOk ∧
      (stimEnvOk.base.preference = Preference.R →
        (mkStimRec stimEnvOk).psth_prefer_on = (mkStimRec stimEnvOk).psth_r_on ∧
        (mkStimRec stimEnvOk).psth_non_prefer_on = (mkStimRec stimEnvOk).psth_l_on) ∧
      (stimEnvOk.base.preference = Preference.L →
        (mkStimRec stimEnvOk).psth_prefer_on = (mkStimRec stimEnvOk).psth_l_on ∧
        (mkStimRec stimEnvOk).psth_non_prefer_on = (mkStimRec stimEnvOk).psth_r_on)) :=
  ⟨(StimOn_guards_and_reuse stimEnvZero).1 (Or.inl rfl),
    (StimOn_guards_and_reuse stimEnvNotSel).2.1 rfl,
    (StimOn_guards_and_reuse stimEnvFew).2.2.1 (by decide) (Or.inl (by decide)),
    (StimOn_guards_and_reuse stimEnvOk).2.2.2 (mkStimRec stimEnvOk)
      (Stim_make_eq_some stimEnvOk (by decide) rfl (by decide) (by decide)
        (by decide) (by decide))⟩

/-- C8: in every emitted `UnitSelectivity` record the stored difference
curve is the pointwise difference of the preferred and non-preferred
test PSTHs, and that pair is a permutation of the right/left test PSTH
pair - derived, never independently estimated; and the same holds for
`psth_diff_on` in every emitted `AlignedPsthStimOn` record. -/
theorem psth_diff_derived :
    (∀ (env : Env) (rec : SelRec),
      UnitSelectivity_make env = Except.ok (some rec) →
      rec.psth_diff_test =
        List.zipWith (· - ·) rec.psth_prefer_test rec.psth_non_prefer_test ∧
      ((rec.psth_prefer_test = rec.psth_r_test ∧ rec.psth_non_prefer_test = rec.psth_l_test) ∨
        (rec.psth_prefer_test = rec.psth_l_test ∧ rec.psth_non_prefer_test = rec.psth_r_test))) ∧
    (∀ (env : StimEnv) (rec : StimRec),
      AlignedPsthStimOn_make env = Except.ok (some rec) →
      rec.psth_diff_on =
        List.zipWith (· - ·) rec.psth_prefer_on rec.psth_non_prefer_on ∧
      ((rec.psth_prefer_on = rec.psth_r_on ∧ rec.psth_non_prefer_on = rec.psth_l_on) ∨
        (rec.psth_prefer_on = rec.psth_l_on ∧ rec.psth_non_prefer_on = rec.psth_r_on))) := by
  constructor
  · intro env rec h
    have he := US_emitted_eq env rec h
    subst he
    refine ⟨rfl, ?_⟩
    by_cases hm : meanFrRScreen env 3 > meanFrLScreen env 3
    · left
      rw [mkSelRec_prefer_test, mkSelRec_non_prefer_test, if_pos hm, if_pos hm]
      exact ⟨rfl, rfl⟩
    · right
      rw [mkSelRec_prefer_test, mkSelRec_non_prefer_test, if_neg hm, if_neg hm]
      exact ⟨rfl, rfl⟩
  · intro env rec h
    obtain ⟨he, hpref⟩ := Stim_emitted_eq env rec h
    subst he
    refine ⟨rfl, ?_⟩
    by_cases hp : env.base.preference = Preference.R
    · left
      rw [mkStimRec_prefer_on, mkStimRec_non_prefer_on, if_pos hp, if_pos hp]
      exact ⟨rfl, rfl⟩
    · right
      rw [mkStimRec_prefer_on, mkStimRec_non_prefer_on, if_neg hp, if_neg hp]
      exact ⟨rfl, rfl⟩

/-- Witness for C8 at `envBase` and `stimEnvOk`. -/
theorem psth_diff_derived_witness :
    (mkSelRec envBase).psth_diff_test =
      List.zipWith (· - ·) (mkSelRec envBase).psth_prefer_test
        (mkSelRec envBase).psth_non_prefer_test ∧
    (mkStimRec stimEnvOk).psth_diff_on =
      List.zipWith (· - ·) (mkStimRec stimEnvOk).psth_prefer_on
        (mkStimRec stimEnvOk).psth_non_prefer_on :=
  ⟨(psth_diff_derived.1 envBase (mkSelRec envBase)
      (US_make_eq_some envBase (by decide) (by decide) (by decide))).1,
    (psth_diff_derived.2 stimEnvOk (mkStimRec stimEnvOk)
      (Stim_make_eq_some stimEnvOk (by decide) rfl (by decide) (by decide)
        (by decide) (by decide))).1⟩

end Gao2018
